import Mathlib

/-!
Verification of the layout-and-annotation geometry engine of
`src/calculator.js` (orthographic-projection spacing calculator).

The JavaScript is embedded shallowly over exact rationals (`ℚ`):
every arithmetic operation of the source is an exact rational operation
here, `Math.round` is Mathlib's `round` (round half toward +∞, matching
JS), `Math.floor` is `Int.floor`, and JS `%` appears only in the test
`x % 3 === 0`, which agrees with `Int.emod`'s zero test for every sign
of `x`.  `Math.hypot dx dy` is used by the source only in comparisons
against nonnegative constants (`len < 1`, `len < 14`); those are encoded
equivalently by squared lengths (`dx^2 + dy^2 < 1`, `< 14^2`).
-/

namespace Ortho

/-- One orthographic view: `.H` is its horizontal extent, `.V` its
vertical extent (source comment, calculator.js lines 13-16). -/
structure View where
  H : ℚ
  V : ℚ
  deriving DecidableEq, Repr

/-- The three views of the solid (calculator.js lines 65-69). -/
structure Shape where
  TOP : View
  FRONT : View
  RIGHT : View
  deriving DecidableEq, Repr

/-- Result of `getSpacing`: `{ vert, hori }`, each a 2- or 3-element
array of spacing values (calculator.js line 55). -/
structure SpacingResult where
  vert : List ℚ
  hori : List ℚ
  deriving DecidableEq, Repr

/-- calculator.js line 27: `vertRaw = areaV - (shape.FRONT.V + shape.TOP.V)`. -/
def vertRaw (areaV : ℚ) (shape : Shape) : ℚ :=
  areaV - (shape.FRONT.V + shape.TOP.V)

/-- calculator.js line 28: `vertRounded = Math.round(vertRaw)`. -/
def vertRounded (areaV : ℚ) (shape : Shape) : ℤ :=
  round (vertRaw areaV shape)

/-- calculator.js line 42: `horiRaw = areaH - (shape.FRONT.H + shape.RIGHT.H)`. -/
def horiRaw (areaH : ℚ) (shape : Shape) : ℚ :=
  areaH - (shape.FRONT.H + shape.RIGHT.H)

/-- calculator.js line 43: `horiRounded = Math.round(horiRaw)`. -/
def horiRounded (areaH : ℚ) (shape : Shape) : ℤ :=
  round (horiRaw areaH shape)

/-- calculator.js lines 35 and 50: the middle gap of the uneven branch,
`Math.min(3, Math.floor(rounded / 2))`. -/
def gapOf (r : ℤ) : ℚ :=
  min 3 ((⌊(r : ℚ) / 2⌋ : ℤ) : ℚ)

/-- calculator.js lines 36 and 51: the margin of the uneven branch,
`Math.max(0, (rounded - gap) / 2)`. -/
def marginOf (r : ℤ) : ℚ :=
  max 0 (((r : ℚ) - gapOf r) / 2)

/-- calculator.js lines 24-56, `getSpacing(areaH, areaV, shape)`.
The JS test `rounded % 3 === 0` is rendered as `rounded % 3 = 0` on `ℤ`;
JS remainder and `Int.emod` differ in sign on negative dividends but
agree on whether the remainder is zero. -/
def getSpacing (areaH areaV : ℚ) (shape : Shape) : SpacingResult :=
  let vert : List ℚ :=
    if vertRounded areaV shape % 3 = 0 then
      [(vertRounded areaV shape : ℚ) / 3, (vertRounded areaV shape : ℚ) / 3,
        (vertRounded areaV shape : ℚ) / 3]
    else
      [marginOf (vertRounded areaV shape), gapOf (vertRounded areaV shape)]
  let hori : List ℚ :=
    if horiRounded areaH shape % 3 = 0 then
      [(horiRounded areaH shape : ℚ) / 3, (horiRounded areaH shape : ℚ) / 3,
        (horiRounded areaH shape : ℚ) / 3]
    else
      [marginOf (horiRounded areaH shape), gapOf (horiRounded areaH shape)]
  { vert := vert, hori := hori }

/-- The four named spacing values extracted by `calculate()`
(calculator.js lines 78-81, 98): `v1` falls back to `v0` when the
vertical array has a single element (never the case here), likewise `h1`. -/
structure Spacing where
  v0 : ℚ
  v1 : ℚ
  h0 : ℚ
  h1 : ℚ
  deriving DecidableEq, Repr

/-- calculator.js lines 74-81: `calculate()` reads inputs, runs
`getSpacing`, and extracts `{v0, v1, h0, h1}` by array indexing
(out-of-range indexing is rendered total with default `0`; the arrays
always have 2 or 3 elements). -/
def calcSpacing (areaH areaV : ℚ) (shape : Shape) : Spacing :=
  let sp := getSpacing areaH areaV shape
  { v0 := sp.vert.getD 0 0
    v1 := if sp.vert.length > 1 then sp.vert.getD 1 0 else sp.vert.getD 0 0
    h0 := sp.hori.getD 0 0
    h1 := if sp.hori.length > 1 then sp.hori.getD 1 0 else sp.hori.getD 0 0 }

/-- calculator.js lines 60-64: `parseFloat(field.value) || d`.  The
JS `||` falls back to the default when the field is absent or
non-numeric (`parseFloat` gives `NaN`, falsy) and also when it parses
to `0` (falsy).  `none` models an absent/non-numeric field. -/
def readInput : Option ℚ → ℚ → ℚ
  | none, d => d
  | some v, d => if v = 0 then d else v

/-- calculator.js lines 65-69: the views derived from width `W`,
height `H`, depth `D`: TOP `{H: W, V: D}`, FRONT `{H: W, V: H}`,
RIGHT `{H: D, V: H}`. -/
def mkShape (W H D : ℚ) : Shape :=
  { TOP := { H := W, V := D }
    FRONT := { H := W, V := H }
    RIGHT := { H := D, V := H } }

/-- The shape built by `readInputs()` when every field is absent:
defaults width 6, height 4, depth 5 (calculator.js lines 60-62). -/
def defaultShape : Shape :=
  mkShape (readInput none 6) (readInput none 4) (readInput none 5)

/-- A drawable primitive emitted by `render` / `dimArrow`.  An SVG
`<line>` carrying arrowhead markers is `markedLine`; a perpendicular
end-tick (calculator.js lines 142-143) is recorded by its endpoint and
the arrow direction `(dx, dy)`, which determine the drawn segment
`(x ± 5*(-dy)/len, y ± 5*dx/len)` with `len = hypot dx dy`; a `<text>`
node is recorded with its position, text-anchor, content and class. -/
inductive Prim where
  | rect (x y w h : ℚ) (cls : String)
  | line (x1 y1 x2 y2 : ℚ) (cls : String)
  | markedLine (x1 y1 x2 y2 : ℚ) (cls markerStart markerEnd : String)
  | tick (x y dx dy : ℚ) (cls : String)
  | text (x y : ℚ) (anchor : String) (content : String) (cls : String)
  deriving DecidableEq, Repr

/-- calculator.js lines 120-121: the optional `opts` argument of
`dimArrow`; `none` models an absent property (`undefined`). -/
structure ArrowOpts where
  labelOffset : Option ℚ := none
  labelSide : Option String := none
  deriving DecidableEq, Repr

/-- calculator.js line 5: `MIN_LBL = 14`, min arrow length in px for an
inline label. -/
def MIN_LBL : ℚ := 14

/-- calculator.js lines 120-183, `dimArrow(x1, y1, x2, y2, label, type,
opts)`: emits the arrow line, two end ticks, and the label, or nothing
when the arrow is shorter than 1 px.  `len = Math.hypot(dx, dy)` is
compared only against the nonnegative constants 1 and `MIN_LBL`, so the
comparisons are encoded by squared length: `len < c ↔ dx² + dy² < c²`.
The JS `===` tests on `type` and `opts.labelSide` are decidable
equalities here.  When the arrow is neither horizontal nor vertical the
source still appends the text node but never sets its `x`, `y` or
`text-anchor` (SVG defaults: 0, 0, empty); the program only emits
axis-aligned arrows, so that branch is dead. -/
def dimArrow (x1 y1 x2 y2 : ℚ) (label : String) (type : String) (opts : ArrowOpts) :
    List Prim :=
  let lineCls := if type = "space" then "dim-space" else "dim-shape"
  let txtCls := if type = "space" then "dim-space-text" else "dim-shape-text"
  let mEnd := if type = "space" then "url(#ah-red-e)" else "url(#ah-blue-e)"
  let mStart := if type = "space" then "url(#ah-red-s)" else "url(#ah-blue-s)"
  let dx := x2 - x1
  let dy := y2 - y1
  if dx ^ 2 + dy ^ 2 < 1 then []
  else
    let mx := (x1 + x2) / 2
    let my := (y1 + y2) / 2
    let lbl : Prim :=
      if |dy| < 1/2 then
        let offset := opts.labelOffset.getD (-8)
        if dx ^ 2 + dy ^ 2 < MIN_LBL ^ 2 then
          Prim.text (max x1 x2 + 5) my "start" label txtCls
        else
          Prim.text mx (my + offset) "middle" label txtCls
      else if |dx| < 1/2 then
        let side : ℚ := if opts.labelSide = some "right" then 1 else -1
        let offset := opts.labelOffset.getD 12
        let anchor := if opts.labelSide = some "right" then "start" else "end"
        if dx ^ 2 + dy ^ 2 < MIN_LBL ^ 2 then
          Prim.text (mx + side * offset) (my - 10) anchor label txtCls
        else
          Prim.text (mx + side * offset) my anchor label txtCls
      else
        Prim.text 0 0 "" label txtCls
    [Prim.markedLine x1 y1 x2 y2 lineCls mStart mEnd,
      Prim.tick x1 y1 dx dy lineCls,
      Prim.tick x2 y2 dx dy lineCls,
      lbl]

/-- calculator.js line 192 (`calculated ? v.toFixed(1) : '?'`), with
`toFixed(1)` rendered as exact round-half-up decimal formatting; the
formatted branch's exact text is irrelevant to every claim. -/
def toFixed1 (v : ℚ) : String :=
  let m : ℤ := round (v * 10)
  let sign := if m < 0 then "-" else ""
  sign ++ toString (m.natAbs / 10) ++ "." ++ toString (m.natAbs % 10)

/-- calculator.js line 192: the dimension-label formatter. -/
def fmt (calculated : Bool) (v : ℚ) : String :=
  if calculated then toFixed1 v else "?"

/-- calculator.js line 203: fixed padding outside the drawing-area box. -/
def PAD_L : ℚ := 56

/-- calculator.js line 203. -/
def PAD_R : ℚ := 56

/-- calculator.js line 203. -/
def PAD_T : ℚ := 44

/-- calculator.js line 203. -/
def PAD_B : ℚ := 44

/-- calculator.js line 285: px gap between a box edge and its shape
dimension arrow. -/
def OFF : ℚ := 12

/-- calculator.js line 198: `totalUnitsH = h0 + fW + h1 + dW + h0`. -/
def totalUnitsH (shape : Shape) (sp : Spacing) : ℚ :=
  sp.h0 + shape.FRONT.H + sp.h1 + shape.RIGHT.H + sp.h0

/-- calculator.js line 199: `totalUnitsV = v0 + dH + v1 + fH + v0`. -/
def totalUnitsV (shape : Shape) (sp : Spacing) : ℚ :=
  sp.v0 + shape.TOP.V + sp.v1 + shape.FRONT.V + sp.v0

/-- calculator.js line 207: `availW = Math.max((wrap.clientWidth || 600) - 2, 200)`. -/
def availW (clientW : ℚ) : ℚ :=
  max ((if clientW = 0 then 600 else clientW) - 2) 200

/-- calculator.js line 208: `availH = Math.max((wrap.clientHeight || 500) - 2, 200)`. -/
def availH (clientH : ℚ) : ℚ :=
  max ((if clientH = 0 then 500 else clientH) - 2) 200

/-- calculator.js line 211: `scaleH = (availW - PAD_L - PAD_R) / totalUnitsH`
(division by a zero extent is the total rational `x / 0 = 0`; the source
never produces a zero extent from positive inputs). -/
def scaleHfit (shape : Shape) (sp : Spacing) (clientW : ℚ) : ℚ :=
  (availW clientW - PAD_L - PAD_R) / totalUnitsH shape sp

/-- calculator.js line 212: `scaleV = (availH - PAD_T - PAD_B) / totalUnitsV`. -/
def scaleVfit (shape : Shape) (sp : Spacing) (clientH : ℚ) : ℚ :=
  (availH clientH - PAD_T - PAD_B) / totalUnitsV shape sp

/-- calculator.js line 213: `S = Math.max(6, Math.min(scaleH, scaleV, 40))`
(JS `Math.min(a, b, c)` folds left: `min (min a b) c`). -/
def scaleS (shape : Shape) (sp : Spacing) (clientW clientH : ℚ) : ℚ :=
  max 6 (min (min (scaleHfit shape sp clientW) (scaleVfit shape sp clientH)) 40)

/-- Pixel geometry of the drawing area and the four view boxes,
calculator.js lines 216-219 and 245-255. -/
structure Geom where
  S : ℚ
  daX : ℚ
  daY : ℚ
  daW : ℚ
  daH : ℚ
  pH0 : ℚ
  pH1 : ℚ
  pV0 : ℚ
  pV1 : ℚ
  tlX : ℚ
  tlY : ℚ
  tlW : ℚ
  tlH : ℚ
  trX : ℚ
  trY : ℚ
  trW : ℚ
  trH : ℚ
  blX : ℚ
  blY : ℚ
  blW : ℚ
  blH : ℚ
  brX : ℚ
  brY : ℚ
  brW : ℚ
  brH : ℚ

/-- calculator.js lines 194-255: the drawing-area box (`daX = PAD_L`,
`daY = PAD_T`, `daW = totalUnitsH * S`, `daH = totalUnitsV * S`),
the scaled spacings (line 245) and the four box rectangles
(lines 248-255), with `fW = FRONT.H`, `fH = FRONT.V`, `dW = RIGHT.H`,
`dH = TOP.V` (lines 194-195). -/
def geom (shape : Shape) (sp : Spacing) (clientW clientH : ℚ) : Geom :=
  let S := scaleS shape sp clientW clientH
  let daX := PAD_L
  let daY := PAD_T
  let pH0 := sp.h0 * S
  let pH1 := sp.h1 * S
  let pV0 := sp.v0 * S
  let pV1 := sp.v1 * S
  let pfW := shape.FRONT.H * S
  let pfH := shape.FRONT.V * S
  let pdW := shape.RIGHT.H * S
  let pdH := shape.TOP.V * S
  { S := S, daX := daX, daY := daY
    daW := totalUnitsH shape sp * S, daH := totalUnitsV shape sp * S
    pH0 := pH0, pH1 := pH1, pV0 := pV0, pV1 := pV1
    tlX := daX + pH0, tlY := daY + pV0, tlW := pfW, tlH := pdH
    trX := daX + pH0 + pfW + pH1, trY := daY + pV0, trW := pdW, trH := pdH
    blX := daX + pH0, blY := daY + pV0 + pdH + pV1, blW := pfW, blH := pfH
    brX := daX + pH0 + pfW + pH1, brY := daY + pV0 + pdH + pV1, brW := pdW, brH := pfH }

/-- calculator.js lines 287-289: `extDot`, a dotted extension line. -/
def extDot (x1 y1 x2 y2 : ℚ) : Prim :=
  Prim.line x1 y1 x2 y2 "ext-dot"

/-- calculator.js lines 229-233: vertical grid lines at every integer
unit `u` with `0 ≤ u ≤ totalUnitsH` (zero iterations when the bound is
negative), stopping early when `x > daX + daW + 0.1` (the `break`). -/
def gridVLines (g : Geom) (totalH : ℚ) : List Prim :=
  let n : ℕ := if totalH < 0 then 0 else ⌊totalH⌋.toNat + 1
  ((List.range n).takeWhile fun u =>
      decide (g.daX + u * g.S ≤ g.daX + g.daW + 1/10)).map fun u =>
    Prim.line (g.daX + u * g.S) g.daY (g.daX + u * g.S) (g.daY + g.daH) "grid-line"

/-- calculator.js lines 235-239: horizontal grid lines, same scheme. -/
def gridHLines (g : Geom) (totalV : ℚ) : List Prim :=
  let n : ℕ := if totalV < 0 then 0 else ⌊totalV⌋.toNat + 1
  ((List.range n).takeWhile fun u =>
      decide (g.daY + u * g.S ≤ g.daY + g.daH + 1/10)).map fun u =>
    Prim.line g.daX (g.daY + u * g.S) (g.daX + g.daW) (g.daY + u * g.S) "grid-line"

/-- calculator.js lines 267-280: the three view-name labels (the
top-right box's label is commented out in the source). -/
def viewLabels (g : Geom) : List Prim :=
  [Prim.text (g.tlX + g.tlW / 2) (g.tlY + g.tlH / 2) "middle" "TOP" "view-label",
    Prim.text (g.blX + g.blW / 2) (g.blY + g.blH / 2) "middle" "FRONT" "view-label",
    Prim.text (g.brX + g.brW / 2) (g.brY + g.brH / 2) "middle" "RIGHT" "view-label"]

/-- calculator.js lines 282-337: the eight blue shape-dimension arrows
with their dotted extension lines, in source order (`fW = FRONT.H`,
`fH = FRONT.V`, `dW = RIGHT.H`, `dH = TOP.V`). -/
def shapeArrows (shape : Shape) (calculated : Bool) (g : Geom) : List Prim :=
  let fW := shape.FRONT.H
  let fH := shape.FRONT.V
  let dW := shape.RIGHT.H
  let dH := shape.TOP.V
  let tlTop := g.tlY - OFF
  let tlLeft := g.tlX - OFF
  let trTop := g.trY - OFF
  let trRight := g.trX + g.trW + OFF
  let blBot := g.blY + g.blH + OFF
  let blLeft := g.blX - OFF
  let brBot := g.brY + g.brH + OFF
  let brRight := g.brX + g.brW + OFF
  dimArrow g.tlX tlTop (g.tlX + g.tlW) tlTop (fmt calculated fW) "shape" {} ++
  [extDot g.tlX tlTop g.tlX g.tlY,
    extDot (g.tlX + g.tlW) tlTop (g.tlX + g.tlW) g.tlY] ++
  dimArrow tlLeft g.tlY tlLeft (g.tlY + g.tlH) (fmt calculated dH) "shape"
    { labelSide := some "left" } ++
  [extDot tlLeft g.tlY g.tlX g.tlY,
    extDot tlLeft (g.tlY + g.tlH) g.tlX (g.tlY + g.tlH)] ++
  dimArrow g.trX trTop (g.trX + g.trW) trTop (fmt calculated dW) "shape" {} ++
  [extDot g.trX trTop g.trX g.trY,
    extDot (g.trX + g.trW) trTop (g.trX + g.trW) g.trY] ++
  dimArrow trRight g.trY trRight (g.trY + g.trH) (fmt calculated dH) "shape"
    { labelSide := some "right" } ++
  [extDot trRight g.trY (g.trX + g.trW) g.trY,
    extDot trRight (g.trY + g.trH) (g.trX + g.trW) (g.trY + g.trH)] ++
  dimArrow g.blX blBot (g.blX + g.blW) blBot (fmt calculated fW) "shape"
    { labelOffset := some 10 } ++
  [extDot g.blX blBot g.blX (g.blY + g.blH),
    extDot (g.blX + g.blW) blBot (g.blX + g.blW) (g.blY + g.blH)] ++
  dimArrow blLeft g.blY blLeft (g.blY + g.blH) (fmt calculated fH) "shape"
    { labelSide := some "left" } ++
  [extDot blLeft g.blY g.blX g.blY,
    extDot blLeft (g.blY + g.blH) g.blX (g.blY + g.blH)] ++
  dimArrow g.brX brBot (g.brX + g.brW) brBot (fmt calculated dW) "shape"
    { labelOffset := some 10 } ++
  [extDot g.brX brBot g.brX (g.brY + g.brH),
    extDot (g.brX + g.brW) brBot (g.brX + g.brW) (g.brY + g.brH)] ++
  dimArrow brRight g.brY brRight (g.brY + g.brH) (fmt calculated fH) "shape"
    { labelSide := some "right" } ++
  [extDot brRight g.brY (g.brX + g.brW) g.brY,
    extDot brRight (g.brY + g.brH) (g.brX + g.brW) (g.brY + g.brH)]

/-- calculator.js lines 365-366: left h0 gap arrow along the top edge. -/
def spH0TopLeft (sp : Spacing) (calculated : Bool) (g : Geom) : List Prim :=
  if g.pH0 > 1 then
    dimArrow g.daX g.tlY g.tlX g.tlY (fmt calculated sp.h0) "space" { labelOffset := some 10 }
  else []

/-- calculator.js lines 367-368: middle h1 gap arrow along the top edge. -/
def spH1Top (sp : Spacing) (calculated : Bool) (g : Geom) : List Prim :=
  if g.pH1 > 1 then
    dimArrow (g.tlX + g.tlW) g.tlY g.trX g.tlY (fmt calculated sp.h1) "space"
      { labelOffset := some 10 }
  else []

/-- calculator.js lines 369-370: right h0 gap arrow along the top edge. -/
def spH0TopRight (sp : Spacing) (calculated : Bool) (g : Geom) : List Prim :=
  if g.pH0 > 1 then
    dimArrow (g.trX + g.trW) g.tlY (g.daX + g.daW) g.tlY (fmt calculated sp.h0) "space"
      { labelOffset := some 10 }
  else []

/-- calculator.js lines 373-374: left h0 gap arrow along the bottom edge. -/
def spH0BotLeft (sp : Spacing) (calculated : Bool) (g : Geom) : List Prim :=
  if g.pH0 > 1 then
    dimArrow g.daX (g.blY + g.blH) g.blX (g.blY + g.blH) (fmt calculated sp.h0) "space"
      { labelOffset := some (-8) }
  else []

/-- calculator.js lines 375-376: middle h1 gap arrow along the bottom edge. -/
def spH1Bot (sp : Spacing) (calculated : Bool) (g : Geom) : List Prim :=
  if g.pH1 > 1 then
    dimArrow (g.blX + g.blW) (g.blY + g.blH) g.brX (g.blY + g.blH) (fmt calculated sp.h1)
      "space" { labelOffset := some (-8) }
  else []

/-- calculator.js lines 377-378: right h0 gap arrow along the bottom edge. -/
def spH0BotRight (sp : Spacing) (calculated : Bool) (g : Geom) : List Prim :=
  if g.pH0 > 1 then
    dimArrow (g.brX + g.brW) (g.blY + g.blH) (g.daX + g.daW) (g.blY + g.blH)
      (fmt calculated sp.h0) "space" { labelOffset := some (-8) }
  else []

/-- calculator.js lines 385-386: top v0 gap arrow along the left edge. -/
def spV0LeftTop (sp : Spacing) (calculated : Bool) (g : Geom) : List Prim :=
  if g.pV0 > 1 then
    dimArrow g.tlX g.daY g.tlX g.tlY (fmt calculated sp.v0) "space" { labelSide := some "right" }
  else []

/-- calculator.js lines 387-388: middle v1 gap arrow along the left edge. -/
def spV1Left (sp : Spacing) (calculated : Bool) (g : Geom) : List Prim :=
  if g.pV1 > 1 then
    dimArrow g.tlX (g.tlY + g.tlH) g.tlX g.blY (fmt calculated sp.v1) "space"
      { labelSide := some "right" }
  else []

/-- calculator.js lines 389-390: bottom v0 gap arrow along the left edge. -/
def spV0LeftBot (sp : Spacing) (calculated : Bool) (g : Geom) : List Prim :=
  if g.pV0 > 1 then
    dimArrow g.tlX (g.blY + g.blH) g.tlX (g.daY + g.daH) (fmt calculated sp.v0) "space"
      { labelSide := some "right" }
  else []

/-- calculator.js lines 393-394: top v0 gap arrow along the right edge. -/
def spV0RightTop (sp : Spacing) (calculated : Bool) (g : Geom) : List Prim :=
  if g.pV0 > 1 then
    dimArrow (g.trX + g.trW) g.daY (g.trX + g.trW) g.trY (fmt calculated sp.v0) "space"
      { labelSide := some "left" }
  else []

/-- calculator.js lines 395-396: middle v1 gap arrow along the right edge. -/
def spV1Right (sp : Spacing) (calculated : Bool) (g : Geom) : List Prim :=
  if g.pV1 > 1 then
    dimArrow (g.trX + g.trW) (g.trY + g.trH) (g.trX + g.trW) g.brY (fmt calculated sp.v1)
      "space" { labelSide := some "left" }
  else []

/-- calculator.js lines 397-398: bottom v0 gap arrow along the right edge. -/
def spV0RightBot (sp : Spacing) (calculated : Bool) (g : Geom) : List Prim :=
  if g.pV0 > 1 then
    dimArrow (g.trX + g.trW) (g.brY + g.brH) (g.trX + g.trW) (g.daY + g.daH)
      (fmt calculated sp.v0) "space" { labelSide := some "left" }
  else []

/-- calculator.js lines 360-398: the twelve guarded red spacing arrows,
in source order. -/
def spacingArrows (sp : Spacing) (calculated : Bool) (g : Geom) : List Prim :=
  spH0TopLeft sp calculated g ++ spH1Top sp calculated g ++ spH0TopRight sp calculated g ++
  spH0BotLeft sp calculated g ++ spH1Bot sp calculated g ++ spH0BotRight sp calculated g ++
  spV0LeftTop sp calculated g ++ spV1Left sp calculated g ++ spV0LeftBot sp calculated g ++
  spV0RightTop sp calculated g ++ spV1Right sp calculated g ++ spV0RightBot sp calculated g

/-- calculator.js lines 186-399, `render(shape, sp, calculated)`: the
full ordered primitive list — background, grid lines, border, four view
boxes, diagonal marker, view labels, shape arrows with extension lines,
spacing arrows.  The wrapper's client size is a parameter (lines
206-208); setting the `<svg>` width/height attributes (lines 221-222) is
not a drawable primitive and is not modelled. -/
def render (shape : Shape) (sp : Spacing) (calculated : Bool) (clientW clientH : ℚ) :
    List Prim :=
  let g := geom shape sp clientW clientH
  [Prim.rect g.daX g.daY g.daW g.daH "draw-area-bg"] ++
  gridVLines g (totalUnitsH shape sp) ++
  gridHLines g (totalUnitsV shape sp) ++
  [Prim.rect g.daX g.daY g.daW g.daH "draw-area-box"] ++
  [Prim.rect g.tlX g.tlY g.tlW g.tlH "box",
    Prim.rect g.trX g.trY g.trW g.trH "box-accent",
    Prim.rect g.blX g.blY g.blW g.blH "box",
    Prim.rect g.brX g.brY g.brW g.brH "box"] ++
  [Prim.line g.trX (g.trY + g.trH) (g.trX + g.trW) g.trY "diag"] ++
  viewLabels g ++
  shapeArrows shape calculated g ++
  spacingArrows sp calculated g

/-- calculator.js line 404: the fixed fallback spacing used before any
calculate action. -/
def fallbackSpacing : Spacing :=
  { v0 := 2, v1 := 3, h0 := 1.2, h1 := 2.4 }

/-- calculator.js lines 402-405, `init()`: reads the (absent) inputs and
renders with the fallback spacing and `calculated = false`. -/
def initRender (clientW clientH : ℚ) : List Prim :=
  render defaultShape fallbackSpacing false clientW clientH

/-- calculator.js lines 74-99: the render performed by `calculate()`
with every input field absent (so the defaults apply). -/
def calculateRender (clientW clientH : ℚ) : List Prim :=
  render defaultShape (calcSpacing (readInput none 16) (readInput none 16) defaultShape)
    true clientW clientH

/-- calculator.js lines 407-415: the resize listener re-runs
`calculate()` when the results section is visible, and otherwise renders
with the fallback spacing and `calculated = false` (inputs absent). -/
def resizeRender (calcDone : Bool) (clientW clientH : ℚ) : List Prim :=
  if calcDone then calculateRender clientW clientH
  else render defaultShape fallbackSpacing false clientW clientH

/-- Predicate for C10: a primitive is acceptable when it is not a
dimension-label text, or its content is the placeholder. -/
def placeholderOk (p : Prim) : Bool :=
  match p with
  | Prim.text _ _ _ s c => !(c == "dim-shape-text" || c == "dim-space-text") || s == "?"
  | _ => true

/-- Predicate for the C10 counterexample: a dimension-label text whose
content is not the string the claim expects. -/
def notUnknownDimText (p : Prim) : Bool :=
  match p with
  | Prim.text _ _ _ s c => (c == "dim-shape-text" || c == "dim-space-text") && !(s == "unknown")
  | _ => false

/-- Concrete evaluation helper shared by several witnesses below. -/
lemma vertRounded_at_16 : vertRounded 16 defaultShape = 7 := by
  norm_num [vertRounded, vertRaw, defaultShape, mkShape, readInput, round_eq]

/-- Concrete evaluation helper. -/
lemma horiRounded_at_16 : horiRounded 16 defaultShape = 5 := by
  norm_num [horiRounded, horiRaw, defaultShape, mkShape, readInput, round_eq]

/-- Concrete evaluation helper. -/
lemma vertRounded_at_18 : vertRounded 18 defaultShape = 9 := by
  norm_num [vertRounded, vertRaw, defaultShape, mkShape, readInput, round_eq]

/-- Concrete evaluation helper. -/
lemma horiRounded_at_0 : horiRounded 0 defaultShape = -11 := by
  norm_num [horiRounded, horiRaw, defaultShape, mkShape, readInput, round_eq]

/-- Concrete evaluation helper. -/
lemma getSpacing_at_16_16 :
    getSpacing 16 16 defaultShape = { vert := [2, 3], hori := [3/2, 2] } := by
  simp only [getSpacing]
  rw [vertRounded_at_16, horiRounded_at_16,
    if_neg (by decide : ¬ ((7 : ℤ) % 3 = 0)), if_neg (by decide : ¬ ((5 : ℤ) % 3 = 0))]
  norm_num [marginOf, gapOf, min_def, max_def]

/-- C1: for every area size and view dimensions whose rounded vertical
(resp. horizontal) leftover is not divisible by 3, `getSpacing` returns
on that axis the two-part form `[margin, gap]` with
`gap = min(3, floor(rounded/2))` and `margin = max(0, (rounded-gap)/2)`;
the margin is nonnegative, and `2*margin + gap = rounded` whenever the
`max(0, _)` clamp does not fire. -/
theorem getSpacing_uneven_branch (areaH areaV : ℚ) (shape : Shape) :
    (¬ vertRounded areaV shape % 3 = 0 →
      (getSpacing areaH areaV shape).vert =
        [marginOf (vertRounded areaV shape), gapOf (vertRounded areaV shape)] ∧
      0 ≤ marginOf (vertRounded areaV shape) ∧
      (0 ≤ ((vertRounded areaV shape : ℚ) - gapOf (vertRounded areaV shape)) / 2 →
        2 * marginOf (vertRounded areaV shape) + gapOf (vertRounded areaV shape) =
          (vertRounded areaV shape : ℚ))) ∧
    (¬ horiRounded areaH shape % 3 = 0 →
      (getSpacing areaH areaV shape).hori =
        [marginOf (horiRounded areaH shape), gapOf (horiRounded areaH shape)] ∧
      0 ≤ marginOf (horiRounded areaH shape) ∧
      (0 ≤ ((horiRounded areaH shape : ℚ) - gapOf (horiRounded areaH shape)) / 2 →
        2 * marginOf (horiRounded areaH shape) + gapOf (horiRounded areaH shape) =
          (horiRounded areaH shape : ℚ))) := by
  constructor
  · intro h
    refine ⟨by simp only [getSpacing]; rw [if_neg h], le_max_left _ _, fun hc => ?_⟩
    unfold marginOf
    rw [max_eq_right hc]
    ring
  · intro h
    refine ⟨by simp only [getSpacing]; rw [if_neg h], le_max_left _ _, fun hc => ?_⟩
    unfold marginOf
    rw [max_eq_right hc]
    ring

/-- Witness for `getSpacing_uneven_branch` at the documented default
inputs (areaV = 16, FRONT.V + TOP.V = 9, rounded = 7; areaH = 16,
FRONT.H + RIGHT.H = 11, rounded = 5). -/
theorem getSpacing_uneven_branch_witness :
    (getSpacing 16 16 defaultShape).vert = [2, 3] ∧
    (getSpacing 16 16 defaultShape).hori = [3/2, 2] ∧
    (0 : ℚ) ≤ 2 ∧ 2 * (2 : ℚ) + 3 = 7 := by
  have h := getSpacing_uneven_branch 16 16 defaultShape
  have hv := h.1 (by rw [vertRounded_at_16]; decide)
  have hh := h.2 (by rw [horiRounded_at_16]; decide)
  refine ⟨?_, ?_, by norm_num, by norm_num⟩
  · rw [hv.1, vertRounded_at_16]
    norm_num [marginOf, gapOf, min_def, max_def]
  · rw [hh.1, horiRounded_at_16]
    norm_num [marginOf, gapOf, min_def, max_def]

/-- C2: for every area size and view dimensions whose rounded leftover
on an axis is divisible by 3, `getSpacing` returns on that axis three
equal parts, each `rounded/3`, summing exactly to `rounded`. -/
theorem getSpacing_even_branch (areaH areaV : ℚ) (shape : Shape) :
    (vertRounded areaV shape % 3 = 0 →
      (getSpacing areaH areaV shape).vert =
        [(vertRounded areaV shape : ℚ) / 3, (vertRounded areaV shape : ℚ) / 3,
          (vertRounded areaV shape : ℚ) / 3] ∧
      (getSpacing areaH areaV shape).vert.sum = (vertRounded areaV shape : ℚ)) ∧
    (horiRounded areaH shape % 3 = 0 →
      (getSpacing areaH areaV shape).hori =
        [(horiRounded areaH shape : ℚ) / 3, (horiRounded areaH shape : ℚ) / 3,
          (horiRounded areaH shape : ℚ) / 3] ∧
      (getSpacing areaH areaV shape).hori.sum = (horiRounded areaH shape : ℚ)) := by
  constructor
  · intro h
    have hl : (getSpacing areaH areaV shape).vert =
        [(vertRounded areaV shape : ℚ) / 3, (vertRounded areaV shape : ℚ) / 3,
          (vertRounded areaV shape : ℚ) / 3] := by
      simp only [getSpacing]
      rw [if_pos h]
    refine ⟨hl, ?_⟩
    rw [hl]
    simp only [List.sum_cons, List.sum_nil]
    ring
  · intro h
    have hl : (getSpacing areaH areaV shape).hori =
        [(horiRounded areaH shape : ℚ) / 3, (horiRounded areaH shape : ℚ) / 3,
          (horiRounded areaH shape : ℚ) / 3] := by
      simp only [getSpacing]
      rw [if_pos h]
    refine ⟨hl, ?_⟩
    rw [hl]
    simp only [List.sum_cons, List.sum_nil]
    ring

/-- Witness for `getSpacing_even_branch`: areaV = 18 with the default
shape gives rounded = 9 on the vertical axis, the 3/3/3 split of the
spec's scenario, summing to 9. -/
theorem getSpacing_even_branch_witness :
    (getSpacing 16 18 defaultShape).vert = [3, 3, 3] ∧
    (getSpacing 16 18 defaultShape).vert.sum = 9 := by
  have h := (getSpacing_even_branch 16 18 defaultShape).1 (by rw [vertRounded_at_18]; decide)
  have hl : (getSpacing 16 18 defaultShape).vert = [3, 3, 3] := by
    rw [h.1, vertRounded_at_18]
    norm_num
  refine ⟨hl, ?_⟩
  rw [h.2, vertRounded_at_18]
  norm_num

/-- C3 counterexample: at areaH = 0 with the default shape the rounded
horizontal leftover is -11, the uneven branch runs, and the returned
middle gap is `min(3, floor(-11/2)) = -6 < 0` — refuting the claim that
every returned spacing value is nonnegative. -/
theorem spacing_nonneg_counterexample :
    (getSpacing 0 0 defaultShape).hori.getD 1 0 = -6 ∧
    ¬ (0 : ℚ) ≤ (getSpacing 0 0 defaultShape).hori.getD 1 0 := by
  have h : (getSpacing 0 0 defaultShape).hori = [marginOf (-11), gapOf (-11)] := by
    simp only [getSpacing]
    rw [horiRounded_at_0, if_neg (by decide : ¬ ((-11 : ℤ) % 3 = 0))]
  rw [h]
  norm_num [gapOf, min_def]

/-- C3 amended: every returned spacing value is nonnegative whenever the
rounded leftover on its axis is nonnegative; for negative leftovers only
the uneven-branch margin is clamped by `max(0, _)` and stays
nonnegative, while the middle gap (and the even-branch thirds) can go
negative. -/
theorem spacing_nonneg_amended (areaH areaV : ℚ) (shape : Shape) :
    ((0 : ℤ) ≤ vertRounded areaV shape →
      ∀ q ∈ (getSpacing areaH areaV shape).vert, 0 ≤ q) ∧
    ((0 : ℤ) ≤ horiRounded areaH shape →
      ∀ q ∈ (getSpacing areaH areaV shape).hori, 0 ≤ q) ∧
    (¬ vertRounded areaV shape % 3 = 0 →
      0 ≤ (getSpacing areaH areaV shape).vert.getD 0 0) ∧
    (¬ horiRounded areaH shape % 3 = 0 →
      0 ≤ (getSpacing areaH areaV shape).hori.getD 0 0) := by
  have gap_nonneg : ∀ r : ℤ, 0 ≤ r → 0 ≤ gapOf r := by
    intro r hr
    refine le_min (by norm_num) ?_
    have : (0 : ℚ) ≤ (r : ℚ) / 2 := by positivity
    exact_mod_cast Int.floor_nonneg.2 this
  have third_nonneg : ∀ r : ℤ, 0 ≤ r → 0 ≤ (r : ℚ) / 3 := by
    intro r hr
    have : (0 : ℚ) ≤ (r : ℚ) := by exact_mod_cast hr
    positivity
  refine ⟨?_, ?_, ?_, ?_⟩
  · intro hr q hq
    by_cases h3 : vertRounded areaV shape % 3 = 0
    · simp only [getSpacing, if_pos h3, List.mem_cons, List.not_mem_nil, or_false] at hq
      rcases hq with rfl | rfl | rfl <;> exact third_nonneg _ hr
    · simp only [getSpacing, if_neg h3, List.mem_cons, List.not_mem_nil, or_false] at hq
      rcases hq with rfl | rfl
      · exact le_max_left _ _
      · exact gap_nonneg _ hr
  · intro hr q hq
    by_cases h3 : horiRounded areaH shape % 3 = 0
    · simp only [getSpacing, if_pos h3, List.mem_cons, List.not_mem_nil, or_false] at hq
      rcases hq with rfl | rfl | rfl <;> exact third_nonneg _ hr
    · simp only [getSpacing, if_neg h3, List.mem_cons, List.not_mem_nil, or_false] at hq
      rcases hq with rfl | rfl
      · exact le_max_left _ _
      · exact gap_nonneg _ hr
  · intro h3
    simp only [getSpacing, if_neg h3]
    exact le_max_left _ _
  · intro h3
    simp only [getSpacing, if_neg h3]
    exact le_max_left _ _

/-- Witness for `spacing_nonneg_amended` at the default inputs
(horizontal rounded leftover 5, not divisible by 3): the extracted side
margin is nonnegative. -/
theorem spacing_nonneg_amended_witness :
    0 ≤ (getSpacing 16 16 defaultShape).hori.getD 0 0 :=
  (spacing_nonneg_amended 16 16 defaultShape).2.2.2
    (by rw [horiRounded_at_16]; decide)

/-- C4: for the documented default inputs (width 6, height 4, depth 5,
areaH 16, areaV 16, each the fallback for an absent field), the computed
spacing is v0 = 2, v1 = 3, h0 = 1.5, h1 = 2. -/
theorem default_inputs_spacing :
    calcSpacing (readInput none 16) (readInput none 16) defaultShape =
      { v0 := 2, v1 := 3, h0 := 3/2, h1 := 2 } := by
  have h16 : readInput none (16 : ℚ) = 16 := rfl
  rw [h16]
  simp only [calcSpacing, getSpacing_at_16_16]
  norm_num

/-- C6: the chosen scale never lies outside [6, 40], and it equals
`min(scaleH, scaleV)` whenever that minimum lies within [6, 40]. -/
theorem scale_clamped (shape : Shape) (sp : Spacing) (clientW clientH : ℚ) :
    6 ≤ scaleS shape sp clientW clientH ∧
    scaleS shape sp clientW clientH ≤ 40 ∧
    (6 ≤ min (scaleHfit shape sp clientW) (scaleVfit shape sp clientH) →
      min (scaleHfit shape sp clientW) (scaleVfit shape sp clientH) ≤ 40 →
      scaleS shape sp clientW clientH =
        min (scaleHfit shape sp clientW) (scaleVfit shape sp clientH)) := by
  refine ⟨le_max_left _ _, max_le (by norm_num) (min_le_right _ _), ?_⟩
  intro h6 h40
  unfold scaleS
  rw [min_eq_left h40, max_eq_right h6]

/-- Witness for `scale_clamped`: the default shape with the computed
default spacing in a 600 x 500 wrapper gives axis scales 243/8 and
205/8, both within [6, 40], so the scale is their minimum. -/
theorem scale_clamped_witness :
    scaleS defaultShape { v0 := 2, v1 := 3, h0 := 3/2, h1 := 2 } 600 500 =
      min (scaleHfit defaultShape { v0 := 2, v1 := 3, h0 := 3/2, h1 := 2 } 600)
        (scaleVfit defaultShape { v0 := 2, v1 := 3, h0 := 3/2, h1 := 2 } 500) := by
  have h1 : scaleHfit defaultShape { v0 := 2, v1 := 3, h0 := 3/2, h1 := 2 } 600 = 243/8 := by
    norm_num [scaleHfit, availW, totalUnitsH, PAD_L, PAD_R, defaultShape, mkShape,
      readInput, max_def]
  have h2 : scaleVfit defaultShape { v0 := 2, v1 := 3, h0 := 3/2, h1 := 2 } 500 = 205/8 := by
    norm_num [scaleVfit, availH, totalUnitsV, PAD_T, PAD_B, defaultShape, mkShape,
      readInput, max_def]
  exact (scale_clamped defaultShape { v0 := 2, v1 := 3, h0 := 3/2, h1 := 2 } 600 500).2.2
    (by rw [h1, h2]; norm_num [min_def]) (by rw [h1, h2]; norm_num [min_def])

/-- C5: the four laid-out boxes tile the grid exactly: TL sits at the
origin plus `(h0, v0)` scaled, sized `(FRONT.H, TOP.V)` scaled; TR abuts
TL across the scaled `h1` gap at the same height, sized
`(RIGHT.H, TOP.V)`; BL abuts TL below the scaled `v1` gap, sized
`(FRONT.H, FRONT.V)`; BR sits at `(TR.x, BL.y)` sized
`(RIGHT.H, FRONT.V)`; and the total extent on each axis is margin +
first span + middle gap + second span + the same margin. -/
theorem layout_boxes_tile (shape : Shape) (sp : Spacing) (cW cH : ℚ) :
    (geom shape sp cW cH).tlX = (geom shape sp cW cH).daX + sp.h0 * (geom shape sp cW cH).S ∧
    (geom shape sp cW cH).tlY = (geom shape sp cW cH).daY + sp.v0 * (geom shape sp cW cH).S ∧
    (geom shape sp cW cH).tlW = shape.FRONT.H * (geom shape sp cW cH).S ∧
    (geom shape sp cW cH).tlH = shape.TOP.V * (geom shape sp cW cH).S ∧
    (geom shape sp cW cH).trX =
      (geom shape sp cW cH).tlX + (geom shape sp cW cH).tlW + sp.h1 * (geom shape sp cW cH).S ∧
    (geom shape sp cW cH).trY = (geom shape sp cW cH).tlY ∧
    (geom shape sp cW cH).trW = shape.RIGHT.H * (geom shape sp cW cH).S ∧
    (geom shape sp cW cH).trH = shape.TOP.V * (geom shape sp cW cH).S ∧
    (geom shape sp cW cH).blX = (geom shape sp cW cH).tlX ∧
    (geom shape sp cW cH).blY =
      (geom shape sp cW cH).tlY + (geom shape sp cW cH).tlH + sp.v1 * (geom shape sp cW cH).S ∧
    (geom shape sp cW cH).blW = shape.FRONT.H * (geom shape sp cW cH).S ∧
    (geom shape sp cW cH).blH = shape.FRONT.V * (geom shape sp cW cH).S ∧
    (geom shape sp cW cH).brX = (geom shape sp cW cH).trX ∧
    (geom shape sp cW cH).brY = (geom shape sp cW cH).blY ∧
    (geom shape sp cW cH).brW = shape.RIGHT.H * (geom shape sp cW cH).S ∧
    (geom shape sp cW cH).brH = shape.FRONT.V * (geom shape sp cW cH).S ∧
    (geom shape sp cW cH).daW =
      sp.h0 * (geom shape sp cW cH).S + shape.FRONT.H * (geom shape sp cW cH).S +
        sp.h1 * (geom shape sp cW cH).S + shape.RIGHT.H * (geom shape sp cW cH).S +
        sp.h0 * (geom shape sp cW cH).S ∧
    (geom shape sp cW cH).daH =
      sp.v0 * (geom shape sp cW cH).S + shape.TOP.V * (geom shape sp cW cH).S +
        sp.v1 * (geom shape sp cW cH).S + shape.FRONT.V * (geom shape sp cW cH).S +
        sp.v0 * (geom shape sp cW cH).S := by
  simp only [geom, totalUnitsH, totalUnitsV]
  refine ⟨?_, ?_, ?_, ?_, ?_, ?_, ?_, ?_, ?_, ?_, ?_, ?_, ?_, ?_, ?_, ?_, ?_, ?_⟩ <;> ring_nf

/-- Auxiliary: a coordinate difference below 1/2 in absolute value has
square below 1/4. -/
lemma abs_lt_half_sq {a : ℚ} (h : |a| < 1/2) : a ^ 2 < 1/4 := by
  nlinarith [sq_abs a, abs_nonneg a]

/-- C8: for a horizontal arrow (|dy| < 0.5) of pixel length at least 14,
the label is middle-anchored at the midpoint x, offset vertically by the
configurable signed offset (default -8); for a drawn horizontal arrow of
length in [1, 14), the label is start-anchored 5 px right of the
rightmost endpoint, vertically centered on the line.  Lengths are
compared squared: `len ≥ 14 ↔ dx² + dy² ≥ 14²`, `len ≥ 1 ↔ dx² + dy² ≥ 1`. -/
theorem dimArrow_horizontal_label (x1 y1 x2 y2 : ℚ) (label ty : String)
    (opts : ArrowOpts) (hH : |y2 - y1| < 1/2) :
    (MIN_LBL ^ 2 ≤ (x2 - x1) ^ 2 + (y2 - y1) ^ 2 →
      dimArrow x1 y1 x2 y2 label ty opts =
        [Prim.markedLine x1 y1 x2 y2 (if ty = "space" then "dim-space" else "dim-shape")
            (if ty = "space" then "url(#ah-red-s)" else "url(#ah-blue-s)")
            (if ty = "space" then "url(#ah-red-e)" else "url(#ah-blue-e)"),
          Prim.tick x1 y1 (x2 - x1) (y2 - y1) (if ty = "space" then "dim-space" else "dim-shape"),
          Prim.tick x2 y2 (x2 - x1) (y2 - y1) (if ty = "space" then "dim-space" else "dim-shape"),
          Prim.text ((x1 + x2) / 2) ((y1 + y2) / 2 + opts.labelOffset.getD (-8)) "middle"
            label (if ty = "space" then "dim-space-text" else "dim-shape-text")]) ∧
    (1 ≤ (x2 - x1) ^ 2 + (y2 - y1) ^ 2 →
      (x2 - x1) ^ 2 + (y2 - y1) ^ 2 < MIN_LBL ^ 2 →
      dimArrow x1 y1 x2 y2 label ty opts =
        [Prim.markedLine x1 y1 x2 y2 (if ty = "space" then "dim-space" else "dim-shape")
            (if ty = "space" then "url(#ah-red-s)" else "url(#ah-blue-s)")
            (if ty = "space" then "url(#ah-red-e)" else "url(#ah-blue-e)"),
          Prim.tick x1 y1 (x2 - x1) (y2 - y1) (if ty = "space" then "dim-space" else "dim-shape"),
          Prim.tick x2 y2 (x2 - x1) (y2 - y1) (if ty = "space" then "dim-space" else "dim-shape"),
          Prim.text (max x1 x2 + 5) ((y1 + y2) / 2) "start" label
            (if ty = "space" then "dim-space-text" else "dim-shape-text")]) := by
  constructor
  · intro hlong
    have h1 : ¬ ((x2 - x1) ^ 2 + (y2 - y1) ^ 2 < 1) := by
      refine not_lt.2 (le_trans ?_ hlong)
      norm_num [MIN_LBL]
    have h2 : ¬ ((x2 - x1) ^ 2 + (y2 - y1) ^ 2 < MIN_LBL ^ 2) := not_lt.2 hlong
    simp only [dimArrow, if_neg h1, if_pos hH, if_neg h2]
  · intro hdrawn hshort
    have h1 : ¬ ((x2 - x1) ^ 2 + (y2 - y1) ^ 2 < 1) := not_lt.2 hdrawn
    simp only [dimArrow, if_neg h1, if_pos hH, if_pos hshort]

/-- Witness for `dimArrow_horizontal_label`: the 20 px arrow (0,0)-(20,0)
labels at (10, -8) middle-anchored; the 5 px arrow (0,0)-(5,0) labels at
(10, 0) start-anchored. -/
theorem dimArrow_horizontal_label_witness :
    dimArrow 0 0 20 0 "6.0" "shape" {} =
      [Prim.markedLine 0 0 20 0 "dim-shape" "url(#ah-blue-s)" "url(#ah-blue-e)",
        Prim.tick 0 0 20 0 "dim-shape",
        Prim.tick 20 0 20 0 "dim-shape",
        Prim.text 10 (-8) "middle" "6.0" "dim-shape-text"] ∧
    dimArrow 0 0 5 0 "6.0" "shape" {} =
      [Prim.markedLine 0 0 5 0 "dim-shape" "url(#ah-blue-s)" "url(#ah-blue-e)",
        Prim.tick 0 0 5 0 "dim-shape",
        Prim.tick 5 0 5 0 "dim-shape",
        Prim.text 10 0 "start" "6.0" "dim-shape-text"] := by
  have hs : ¬ ("shape" = "space") := by decide
  constructor
  · have h := (dimArrow_horizontal_label 0 0 20 0 "6.0" "shape" {} (by norm_num)).1
      (by norm_num [MIN_LBL])
    rw [h]
    norm_num [if_neg hs, max_def]
  · have h := (dimArrow_horizontal_label 0 0 5 0 "6.0" "shape" {} (by norm_num)).2
      (by norm_num) (by norm_num [MIN_LBL])
    rw [h]
    norm_num [if_neg hs, max_def]

/-- C9 counterexample: the short vertical arrow (0,0)-(0,5) (length 5,
in [1,14)) places its label at x = -12 — the horizontal side offset is
kept — not at the midpoint x = 0 as the claim states; the second
conjunct checks no emitted text sits at the midpoint x. -/
theorem dimArrow_vertical_short_counterexample :
    dimArrow 0 0 0 5 "2.0" "shape" {} =
      [Prim.markedLine 0 0 0 5 "dim-shape" "url(#ah-blue-s)" "url(#ah-blue-e)",
        Prim.tick 0 0 0 5 "dim-shape",
        Prim.tick 0 5 0 5 "dim-shape",
        Prim.text (-12) (-15/2) "end" "2.0" "dim-shape-text"] ∧
    ((dimArrow 0 0 0 5 "2.0" "shape" {}).all fun p =>
      match p with
      | Prim.text x _ _ _ _ => decide (x ≠ 0)
      | _ => true) = true := by
  have hs : ¬ ("shape" = "space") := by decide
  have hside : ¬ (({} : ArrowOpts).labelSide = some "right") := by decide
  have e1 : ¬ (((0:ℚ) - 0) ^ 2 + ((5:ℚ) - 0) ^ 2 < 1) := by norm_num
  have e2 : ¬ (|(5:ℚ) - 0| < 1/2) := by norm_num
  have e3 : |(0:ℚ) - 0| < 1/2 := by norm_num
  have e4 : ((0:ℚ) - 0) ^ 2 + ((5:ℚ) - 0) ^ 2 < MIN_LBL ^ 2 := by norm_num [MIN_LBL]
  have h : dimArrow 0 0 0 5 "2.0" "shape" {} =
      [Prim.markedLine 0 0 0 5 "dim-shape" "url(#ah-blue-s)" "url(#ah-blue-e)",
        Prim.tick 0 0 0 5 "dim-shape",
        Prim.tick 0 5 0 5 "dim-shape",
        Prim.text (-12) (-15/2) "end" "2.0" "dim-shape-text"] := by
    simp only [dimArrow, if_neg e1, if_neg e2, if_pos e3, if_pos e4, if_neg hs, if_neg hside]
    norm_num
  refine ⟨h, ?_⟩
  rw [h]
  simp only [List.all_cons, List.all_nil, Bool.and_eq_true, decide_eq_true_eq]
  norm_num

/-- C9 amended: for a vertical arrow (|dx| < 0.5) of pixel length at
least 14, the label sits at the midpoint height, horizontally offset by
the default 12 px to the chosen side (left: end-anchored, offset
subtracted; right: start-anchored, offset added); for a drawn vertical
arrow of length in [1, 14), the label keeps that same horizontal side
offset and anchor and is raised 10 px above the midpoint height. -/
theorem dimArrow_vertical_label (x1 y1 x2 y2 : ℚ) (label ty : String)
    (opts : ArrowOpts) (hV : |x2 - x1| < 1/2) :
    (MIN_LBL ^ 2 ≤ (x2 - x1) ^ 2 + (y2 - y1) ^ 2 →
      dimArrow x1 y1 x2 y2 label ty opts =
        [Prim.markedLine x1 y1 x2 y2 (if ty = "space" then "dim-space" else "dim-shape")
            (if ty = "space" then "url(#ah-red-s)" else "url(#ah-blue-s)")
            (if ty = "space" then "url(#ah-red-e)" else "url(#ah-blue-e)"),
          Prim.tick x1 y1 (x2 - x1) (y2 - y1) (if ty = "space" then "dim-space" else "dim-shape"),
          Prim.tick x2 y2 (x2 - x1) (y2 - y1) (if ty = "space" then "dim-space" else "dim-shape"),
          Prim.text
            ((x1 + x2) / 2 +
              (if opts.labelSide = some "right" then 1 else -1) * opts.labelOffset.getD 12)
            ((y1 + y2) / 2)
            (if opts.labelSide = some "right" then "start" else "end") label
            (if ty = "space" then "dim-space-text" else "dim-shape-text")]) ∧
    (1 ≤ (x2 - x1) ^ 2 + (y2 - y1) ^ 2 →
      (x2 - x1) ^ 2 + (y2 - y1) ^ 2 < MIN_LBL ^ 2 →
      dimArrow x1 y1 x2 y2 label ty opts =
        [Prim.markedLine x1 y1 x2 y2 (if ty = "space" then "dim-space" else "dim-shape")
            (if ty = "space" then "url(#ah-red-s)" else "url(#ah-blue-s)")
            (if ty = "space" then "url(#ah-red-e)" else "url(#ah-blue-e)"),
          Prim.tick x1 y1 (x2 - x1) (y2 - y1) (if ty = "space" then "dim-space" else "dim-shape"),
          Prim.tick x2 y2 (x2 - x1) (y2 - y1) (if ty = "space" then "dim-space" else "dim-shape"),
          Prim.text
            ((x1 + x2) / 2 +
              (if opts.labelSide = some "right" then 1 else -1) * opts.labelOffset.getD 12)
            ((y1 + y2) / 2 - 10)
            (if opts.labelSide = some "right" then "start" else "end") label
            (if ty = "space" then "dim-space-text" else "dim-shape-text")]) := by
  constructor
  · intro hlong
    have hsq : (1 : ℚ) ≤ (x2 - x1) ^ 2 + (y2 - y1) ^ 2 := by
      refine le_trans ?_ hlong
      norm_num [MIN_LBL]
    have hy : ¬ (|y2 - y1| < 1/2) := by
      intro hy
      have h1 := abs_lt_half_sq hV
      have h2 := abs_lt_half_sq hy
      linarith
    have h1 : ¬ ((x2 - x1) ^ 2 + (y2 - y1) ^ 2 < 1) := not_lt.2 hsq
    have h2 : ¬ ((x2 - x1) ^ 2 + (y2 - y1) ^ 2 < MIN_LBL ^ 2) := not_lt.2 hlong
    simp only [dimArrow, if_neg h1, if_neg hy, if_pos hV, if_neg h2]
  · intro hdrawn hshort
    have hy : ¬ (|y2 - y1| < 1/2) := by
      intro hy
      have h1 := abs_lt_half_sq hV
      have h2 := abs_lt_half_sq hy
      linarith
    have h1 : ¬ ((x2 - x1) ^ 2 + (y2 - y1) ^ 2 < 1) := not_lt.2 hdrawn
    simp only [dimArrow, if_neg h1, if_neg hy, if_pos hV, if_pos hshort]

/-- Witness for `dimArrow_vertical_label`: the 20 px vertical arrow
(0,0)-(0,20) with default options labels at (-12, 10), end-anchored;
the 5 px vertical arrow (0,0)-(0,5) with `labelSide: 'right'` labels at
(12, -15/2), start-anchored. -/
theorem dimArrow_vertical_label_witness :
    dimArrow 0 0 0 20 "4.0" "shape" {} =
      [Prim.markedLine 0 0 0 20 "dim-shape" "url(#ah-blue-s)" "url(#ah-blue-e)",
        Prim.tick 0 0 0 20 "dim-shape",
        Prim.tick 0 20 0 20 "dim-shape",
        Prim.text (-12) 10 "end" "4.0" "dim-shape-text"] ∧
    dimArrow 0 0 0 5 "4.0" "shape" { labelSide := some "right" } =
      [Prim.markedLine 0 0 0 5 "dim-shape" "url(#ah-blue-s)" "url(#ah-blue-e)",
        Prim.tick 0 0 0 5 "dim-shape",
        Prim.tick 0 5 0 5 "dim-shape",
        Prim.text 12 (-15/2) "start" "4.0" "dim-shape-text"] := by
  have hs : ¬ ("shape" = "space") := by decide
  have hside : ¬ (({} : ArrowOpts).labelSide = some "right") := by decide
  have hside2 : ({ labelSide := some "right" } : ArrowOpts).labelSide = some "right" := rfl
  constructor
  · have h := (dimArrow_vertical_label 0 0 0 20 "4.0" "shape" {} (by norm_num)).1
      (by norm_num [MIN_LBL])
    rw [h]
    norm_num [if_neg hs, if_neg hside]
  · have h := (dimArrow_vertical_label 0 0 0 5 "4.0" "shape" { labelSide := some "right" }
      (by norm_num)).2 (by norm_num) (by norm_num [MIN_LBL])
    rw [h]
    norm_num [if_neg hs, if_pos hside2]

/-- Auxiliary: an arrow of squared length at least 1 emits primitives. -/
lemma dimArrow_ne_nil {x1 y1 x2 y2 : ℚ} (label ty : String) (opts : ArrowOpts)
    (h : ¬ ((x2 - x1) ^ 2 + (y2 - y1) ^ 2 < 1)) :
    dimArrow x1 y1 x2 y2 label ty opts ≠ [] := by
  simp only [dimArrow, if_neg h]
  simp

/-- Auxiliary: a horizontal segment whose x-extent exceeds 1 has squared
length at least 1. -/
lemma not_sq_lt_one_h {a b p : ℚ} (ha : a = p) (hb : b = 0) (hp : 1 < p) :
    ¬ (a ^ 2 + b ^ 2 < 1) := by
  subst ha
  subst hb
  intro hcon
  nlinarith [hp]

/-- Auxiliary: a vertical segment whose y-extent exceeds 1 has squared
length at least 1. -/
lemma not_sq_lt_one_v {a b p : ℚ} (ha : a = 0) (hb : b = p) (hp : 1 < p) :
    ¬ (a ^ 2 + b ^ 2 < 1) := by
  subst ha
  subst hb
  intro hcon
  nlinarith [hp]

/-- C7: each spacing arrow is emitted exactly when its gap's scaled
pixel extent exceeds 1 px: each of the twelve guarded calls contributes
nothing when its gap's extent is at most 1 (the render guard is
`pX > 1`), and a nonempty arrow when it exceeds 1 (the `len < 1` skip
inside `dimArrow` cannot fire, because each spacing arrow's length
equals its gap's scaled extent). -/
theorem spacing_arrow_threshold (shape : Shape) (sp : Spacing) (c : Bool) (cW cH : ℚ) :
    (sp.h0 * scaleS shape sp cW cH ≤ 1 →
      spH0TopLeft sp c (geom shape sp cW cH) = [] ∧
      spH0TopRight sp c (geom shape sp cW cH) = [] ∧
      spH0BotLeft sp c (geom shape sp cW cH) = [] ∧
      spH0BotRight sp c (geom shape sp cW cH) = []) ∧
    (sp.h1 * scaleS shape sp cW cH ≤ 1 →
      spH1Top sp c (geom shape sp cW cH) = [] ∧
      spH1Bot sp c (geom shape sp cW cH) = []) ∧
    (sp.v0 * scaleS shape sp cW cH ≤ 1 →
      spV0LeftTop sp c (geom shape sp cW cH) = [] ∧
      spV0LeftBot sp c (geom shape sp cW cH) = [] ∧
      spV0RightTop sp c (geom shape sp cW cH) = [] ∧
      spV0RightBot sp c (geom shape sp cW cH) = []) ∧
    (sp.v1 * scaleS shape sp cW cH ≤ 1 →
      spV1Left sp c (geom shape sp cW cH) = [] ∧
      spV1Right sp c (geom shape sp cW cH) = []) ∧
    (1 < sp.h0 * scaleS shape sp cW cH →
      spH0TopLeft sp c (geom shape sp cW cH) ≠ [] ∧
      spH0TopRight sp c (geom shape sp cW cH) ≠ [] ∧
      spH0BotLeft sp c (geom shape sp cW cH) ≠ [] ∧
      spH0BotRight sp c (geom shape sp cW cH) ≠ []) ∧
    (1 < sp.h1 * scaleS shape sp cW cH →
      spH1Top sp c (geom shape sp cW cH) ≠ [] ∧
      spH1Bot sp c (geom shape sp cW cH) ≠ []) ∧
    (1 < sp.v0 * scaleS shape sp cW cH →
      spV0LeftTop sp c (geom shape sp cW cH) ≠ [] ∧
      spV0LeftBot sp c (geom shape sp cW cH) ≠ [] ∧
      spV0RightTop sp c (geom shape sp cW cH) ≠ [] ∧
      spV0RightBot sp c (geom shape sp cW cH) ≠ []) ∧
    (1 < sp.v1 * scaleS shape sp cW cH →
      spV1Left sp c (geom shape sp cW cH) ≠ [] ∧
      spV1Right sp c (geom shape sp cW cH) ≠ []) := by
  refine ⟨?_, ?_, ?_, ?_, ?_, ?_, ?_, ?_⟩
  · intro h
    have hn : ¬ ((geom shape sp cW cH).pH0 > 1) := not_lt.2 h
    refine ⟨?_, ?_, ?_, ?_⟩ <;>
      simp only [spH0TopLeft, spH0TopRight, spH0BotLeft, spH0BotRight, if_neg hn]
  · intro h
    have hn : ¬ ((geom shape sp cW cH).pH1 > 1) := not_lt.2 h
    refine ⟨?_, ?_⟩ <;> simp only [spH1Top, spH1Bot, if_neg hn]
  · intro h
    have hn : ¬ ((geom shape sp cW cH).pV0 > 1) := not_lt.2 h
    refine ⟨?_, ?_, ?_, ?_⟩ <;>
      simp only [spV0LeftTop, spV0LeftBot, spV0RightTop, spV0RightBot, if_neg hn]
  · intro h
    have hn : ¬ ((geom shape sp cW cH).pV1 > 1) := not_lt.2 h
    refine ⟨?_, ?_⟩ <;> simp only [spV1Left, spV1Right, if_neg hn]
  · intro h
    have hp : (geom shape sp cW cH).pH0 > 1 := h
    refine ⟨?_, ?_, ?_, ?_⟩
    · simp only [spH0TopLeft, if_pos hp]
      exact dimArrow_ne_nil _ _ _
        (not_sq_lt_one_h (by simp only [geom]; ring_nf) (sub_self _) hp)
    · simp only [spH0TopRight, if_pos hp]
      exact dimArrow_ne_nil _ _ _
        (not_sq_lt_one_h (by simp only [geom, totalUnitsH]; ring_nf) (sub_self _) hp)
    · simp only [spH0BotLeft, if_pos hp]
      exact dimArrow_ne_nil _ _ _
        (not_sq_lt_one_h (by simp only [geom]; ring_nf) (sub_self _) hp)
    · simp only [spH0BotRight, if_pos hp]
      exact dimArrow_ne_nil _ _ _
        (not_sq_lt_one_h (by simp only [geom, totalUnitsH]; ring_nf) (sub_self _) hp)
  · intro h
    have hp : (geom shape sp cW cH).pH1 > 1 := h
    refine ⟨?_, ?_⟩
    · simp only [spH1Top, if_pos hp]
      exact dimArrow_ne_nil _ _ _
        (not_sq_lt_one_h (by simp only [geom]; ring_nf) (sub_self _) hp)
    · simp only [spH1Bot, if_pos hp]
      exact dimArrow_ne_nil _ _ _
        (not_sq_lt_one_h (by simp only [geom]; ring_nf) (sub_self _) hp)
  · intro h
    have hp : (geom shape sp cW cH).pV0 > 1 := h
    refine ⟨?_, ?_, ?_, ?_⟩
    · simp only [spV0LeftTop, if_pos hp]
      exact dimArrow_ne_nil _ _ _
        (not_sq_lt_one_v (sub_self _) (by simp only [geom]; ring_nf) hp)
    · simp only [spV0LeftBot, if_pos hp]
      exact dimArrow_ne_nil _ _ _
        (not_sq_lt_one_v (sub_self _) (by simp only [geom, totalUnitsV]; ring_nf) hp)
    · simp only [spV0RightTop, if_pos hp]
      exact dimArrow_ne_nil _ _ _
        (not_sq_lt_one_v (sub_self _) (by simp only [geom]; ring_nf) hp)
    · simp only [spV0RightBot, if_pos hp]
      exact dimArrow_ne_nil _ _ _
        (not_sq_lt_one_v (sub_self _) (by simp only [geom, totalUnitsV]; ring_nf) hp)
  · intro h
    have hp : (geom shape sp cW cH).pV1 > 1 := h
    refine ⟨?_, ?_⟩
    · simp only [spV1Left, if_pos hp]
      exact dimArrow_ne_nil _ _ _
        (not_sq_lt_one_v (sub_self _) (by simp only [geom]; ring_nf) hp)
    · simp only [spV1Right, if_pos hp]
      exact dimArrow_ne_nil _ _ _
        (not_sq_lt_one_v (sub_self _) (by simp only [geom]; ring_nf) hp)

/-- Witness for `spacing_arrow_threshold`: with h0 = 0 the four side
margin arrows vanish, while the v1 = 3 gap (scaled extent 3S > 1) emits
its arrows. -/
theorem spacing_arrow_threshold_witness :
    spH0TopLeft { v0 := 2, v1 := 3, h0 := 0, h1 := 2 } false
      (geom defaultShape { v0 := 2, v1 := 3, h0 := 0, h1 := 2 } 600 500) = [] ∧
    spV1Left { v0 := 2, v1 := 3, h0 := 0, h1 := 2 } false
      (geom defaultShape { v0 := 2, v1 := 3, h0 := 0, h1 := 2 } 600 500) ≠ [] := by
  have h := spacing_arrow_threshold defaultShape { v0 := 2, v1 := 3, h0 := 0, h1 := 2 }
    false 600 500
  have hS : (6 : ℚ) ≤ scaleS defaultShape { v0 := 2, v1 := 3, h0 := 0, h1 := 2 } 600 500 :=
    le_max_left _ _
  refine ⟨(h.1 (by norm_num)).1, (h.2.2.2.2.2.2.2 ?_).1⟩
  show (1 : ℚ) < 3 * scaleS defaultShape { v0 := 2, v1 := 3, h0 := 0, h1 := 2 } 600 500
  nlinarith [hS]

/-- Auxiliary: `fmt` renders the placeholder when `calculated` is false
(calculator.js line 192). -/
lemma fmt_false (v : ℚ) : fmt false v = "?" := rfl

/-- Auxiliary: every primitive emitted by a `dimArrow` labelled with the
placeholder satisfies `placeholderOk`. -/
lemma placeholderOk_dimArrow (x1 y1 x2 y2 : ℚ) (ty : String) (opts : ArrowOpts) :
    (dimArrow x1 y1 x2 y2 "?" ty opts).all placeholderOk = true := by
  rw [List.all_eq_true]
  intro p hp
  simp only [dimArrow] at hp
  split_ifs at hp <;>
    first
      | exact absurd hp (List.not_mem_nil p)
      | (simp only [List.mem_cons, List.not_mem_nil, or_false] at hp
         rcases hp with rfl | rfl | rfl | rfl <;> rfl)

/-- Auxiliary: `placeholderOk` also holds across a guarded spacing
arrow. -/
lemma placeholderOk_guarded (cnd : Prop) [Decidable cnd] (x1 y1 x2 y2 : ℚ)
    (ty : String) (opts : ArrowOpts) :
    (if cnd then dimArrow x1 y1 x2 y2 "?" ty opts else []).all placeholderOk = true := by
  split
  · exact placeholderOk_dimArrow x1 y1 x2 y2 ty opts
  · rfl

/-- Auxiliary: grid lines are not text. -/
lemma placeholderOk_gridV (g : Geom) (t : ℚ) :
    (gridVLines g t).all placeholderOk = true := by
  rw [List.all_eq_true]
  intro p hp
  simp only [gridVLines, List.mem_map] at hp
  obtain ⟨u, hu, rfl⟩ := hp
  rfl

/-- Auxiliary: grid lines are not text. -/
lemma placeholderOk_gridH (g : Geom) (t : ℚ) :
    (gridHLines g t).all placeholderOk = true := by
  rw [List.all_eq_true]
  intro p hp
  simp only [gridHLines, List.mem_map] at hp
  obtain ⟨u, hu, rfl⟩ := hp
  rfl

/-- Auxiliary: view-name labels are not dimension labels. -/
lemma placeholderOk_viewLabels (g : Geom) :
    (viewLabels g).all placeholderOk = true := rfl

/-- Auxiliary: every shape arrow drawn with `calculated = false`
satisfies `placeholderOk`. -/
lemma placeholderOk_shapeArrows (shape : Shape) (g : Geom) :
    (shapeArrows shape false g).all placeholderOk = true := by
  simp only [shapeArrows, fmt_false, List.append_assoc, List.all_append, Bool.and_eq_true]
  refine ⟨placeholderOk_dimArrow _ _ _ _ _ _, rfl, placeholderOk_dimArrow _ _ _ _ _ _, rfl,
    placeholderOk_dimArrow _ _ _ _ _ _, rfl, placeholderOk_dimArrow _ _ _ _ _ _, rfl,
    placeholderOk_dimArrow _ _ _ _ _ _, rfl, placeholderOk_dimArrow _ _ _ _ _ _, rfl,
    placeholderOk_dimArrow _ _ _ _ _ _, rfl, placeholderOk_dimArrow _ _ _ _ _ _, rfl⟩

/-- Auxiliary: every spacing arrow drawn with `calculated = false`
satisfies `placeholderOk`. -/
lemma placeholderOk_spacingArrows (sp : Spacing) (g : Geom) :
    (spacingArrows sp false g).all placeholderOk = true := by
  simp only [spacingArrows, List.append_assoc, List.all_append, Bool.and_eq_true]
  refine ⟨?_, ?_, ?_, ?_, ?_, ?_, ?_, ?_, ?_, ?_, ?_, ?_⟩ <;>
  · simp only [spH0TopLeft, spH1Top, spH0TopRight, spH0BotLeft, spH1Bot, spH0BotRight,
      spV0LeftTop, spV1Left, spV0LeftBot, spV0RightTop, spV1Right, spV0RightBot, fmt_false]
    exact placeholderOk_guarded _ _ _ _ _ _ _

/-- C10 counterexample: in the initial render (`calculated = false`,
wrapper 600 x 500) some dimension label has content different from
"unknown" — the placeholder actually rendered is "?".  The exhibited
label belongs to the TL-box top-edge shape arrow, whose length
`FRONT.H * S = 6S ≥ 36` px guarantees it is drawn with an inline
middle-anchored label. -/
theorem render_uncalculated_counterexample :
    ((initRender 600 500).any notUnknownDimText) = true := by
  rw [List.any_eq_true]
  have h6 : (6 : ℚ) ≤ scaleS defaultShape fallbackSpacing 600 500 := le_max_left _ _
  have e1 : (geom defaultShape fallbackSpacing 600 500).tlX +
      (geom defaultShape fallbackSpacing 600 500).tlW -
      (geom defaultShape fallbackSpacing 600 500).tlX =
      6 * scaleS defaultShape fallbackSpacing 600 500 := by
    simp only [geom, defaultShape, mkShape, readInput]
    ring_nf
  have e2 : (geom defaultShape fallbackSpacing 600 500).tlY - OFF -
      ((geom defaultShape fallbackSpacing 600 500).tlY - OFF) = 0 := sub_self _
  have hguard : ¬ (((geom defaultShape fallbackSpacing 600 500).tlX +
      (geom defaultShape fallbackSpacing 600 500).tlW -
      (geom defaultShape fallbackSpacing 600 500).tlX) ^ 2 +
      ((geom defaultShape fallbackSpacing 600 500).tlY - OFF -
        ((geom defaultShape fallbackSpacing 600 500).tlY - OFF)) ^ 2 < 1) := by
    rw [e1, e2]
    intro hcon
    nlinarith [h6]
  have hH : |(geom defaultShape fallbackSpacing 600 500).tlY - OFF -
      ((geom defaultShape fallbackSpacing 600 500).tlY - OFF)| < 1/2 := by
    rw [e2]
    norm_num
  have hlong : ¬ (((geom defaultShape fallbackSpacing 600 500).tlX +
      (geom defaultShape fallbackSpacing 600 500).tlW -
      (geom defaultShape fallbackSpacing 600 500).tlX) ^ 2 +
      ((geom defaultShape fallbackSpacing 600 500).tlY - OFF -
        ((geom defaultShape fallbackSpacing 600 500).tlY - OFF)) ^ 2 < MIN_LBL ^ 2) := by
    rw [e1, e2]
    intro hcon
    rw [MIN_LBL] at hcon
    nlinarith [h6]
  have hs : ¬ (("shape" : String) = "space") := by decide
  have hmem : Prim.text
      (((geom defaultShape fallbackSpacing 600 500).tlX +
        ((geom defaultShape fallbackSpacing 600 500).tlX +
          (geom defaultShape fallbackSpacing 600 500).tlW)) / 2)
      ((((geom defaultShape fallbackSpacing 600 500).tlY - OFF) +
        ((geom defaultShape fallbackSpacing 600 500).tlY - OFF)) / 2 + (-8))
      "middle" "?" "dim-shape-text" ∈
      dimArrow (geom defaultShape fallbackSpacing 600 500).tlX
        ((geom defaultShape fallbackSpacing 600 500).tlY - OFF)
        ((geom defaultShape fallbackSpacing 600 500).tlX +
          (geom defaultShape fallbackSpacing 600 500).tlW)
        ((geom defaultShape fallbackSpacing 600 500).tlY - OFF) "?" "shape" {} := by
    simp only [dimArrow, if_neg hguard, if_pos hH, if_neg hlong, if_neg hs, Option.getD_none]
    simp
  refine ⟨Prim.text
      (((geom defaultShape fallbackSpacing 600 500).tlX +
        ((geom defaultShape fallbackSpacing 600 500).tlX +
          (geom defaultShape fallbackSpacing 600 500).tlW)) / 2)
      ((((geom defaultShape fallbackSpacing 600 500).tlY - OFF) +
        ((geom defaultShape fallbackSpacing 600 500).tlY - OFF)) / 2 + (-8))
      "middle" "?" "dim-shape-text", ?_, ?_⟩
  · have hsub : Prim.text
        (((geom defaultShape fallbackSpacing 600 500).tlX +
          ((geom defaultShape fallbackSpacing 600 500).tlX +
            (geom defaultShape fallbackSpacing 600 500).tlW)) / 2)
        ((((geom defaultShape fallbackSpacing 600 500).tlY - OFF) +
          ((geom defaultShape fallbackSpacing 600 500).tlY - OFF)) / 2 + (-8))
        "middle" "?" "dim-shape-text" ∈
        shapeArrows defaultShape false (geom defaultShape fallbackSpacing 600 500) := by
      simp only [shapeArrows, List.append_assoc]
      exact List.mem_append_left _ hmem
    simp only [initRender, render, List.append_assoc]
    exact List.mem_append_right _ (List.mem_append_right _ (List.mem_append_right _
      (List.mem_append_right _ (List.mem_append_right _ (List.mem_append_right _
        (List.mem_append_right _ (List.mem_append_left _ hsub)))))))
  · rfl

/-- C10 amended: for every render with `calculated = false`, every
dimension label (class dim-shape-text or dim-space-text) has the
placeholder content "?" (not "unknown"), and both the initial render and
a resize before any calculate action draw with the fixed fallback
spacing v0 = 2, v1 = 3, h0 = 1.2, h1 = 2.4 and `calculated = false`. -/
theorem render_uncalculated_placeholder (shape : Shape) (sp : Spacing) (cW cH : ℚ) :
    (render shape sp false cW cH).all placeholderOk = true ∧
    initRender cW cH = render defaultShape fallbackSpacing false cW cH ∧
    resizeRender false cW cH = render defaultShape fallbackSpacing false cW cH ∧
    fallbackSpacing = { v0 := 2, v1 := 3, h0 := 1.2, h1 := 2.4 } := by
  refine ⟨?_, rfl, rfl, rfl⟩
  simp only [render, List.append_assoc, List.all_append, Bool.and_eq_true]
  exact ⟨rfl, placeholderOk_gridV _ _, placeholderOk_gridH _ _, rfl, rfl, rfl,
    placeholderOk_viewLabels _, placeholderOk_shapeArrows _ _, placeholderOk_spacingArrows _ _⟩

end Ortho
